import Mathlib

/-!
Shallow embedding of the computational core of the MODIS-LULC-analysis
repository (src/lulc_analyzer.py and src/change_analyzer.py), together with
proofs checking the natural-language specification against it.

Modelling conventions:
* A pandas DataFrame of labelled samples is a `List Sample`; the core reads
  only the `land_cover_class` and `land_cover_name` columns, so only those are
  modelled.
* Python ints are `Nat`/`Int`; Python floats are modelled as `ℚ` (every value
  the core computes is a ratio of machine integers).
* `pandas.Series.value_counts()` guarantees only that its index enumerates the
  distinct values with counts in non-increasing order; the tie order comes
  from an unstable sort, so the enumeration is passed in as an explicit
  parameter `vcOrder` constrained by `ValidVCOrder`.
* Python `set` iteration order is likewise unspecified (hash-based), so the
  iteration order of `all_classes` in `_calculate_area_changes` is a
  parameter `order` constrained by `ValidClassOrder`.
* Python `sorted`/`list.sort` with `reverse=True` is a stable descending
  sort, modelled by `List.insertionSort` with a descending relation (any two
  stable sorts for the same total preorder agree).
* `ZeroDivisionError` raised by an unguarded integer division is modelled by
  returning `none`.
-/

/-- One labelled observation (one DataFrame row); only the two columns the
computational core reads are modelled. -/
structure Sample where
  land_cover_class : Nat
  land_cover_name : String
deriving DecidableEq, Repr

/-- The fixed IGBP enumeration from `MODISRetriever.LAND_COVER_CLASSES`. -/
def LAND_COVER_CLASSES : List (Nat × String) :=
  [(1, "Evergreen Needleleaf Forest"),
   (2, "Evergreen Broadleaf Forest"),
   (3, "Deciduous Needleleaf Forest"),
   (4, "Deciduous Broadleaf Forest"),
   (5, "Mixed Forests"),
   (6, "Closed Shrublands"),
   (7, "Open Shrublands"),
   (8, "Woody Savannas"),
   (9, "Savannas"),
   (10, "Grasslands"),
   (11, "Permanent Wetlands"),
   (12, "Croplands"),
   (13, "Urban and Built-up"),
   (14, "Cropland/Natural Vegetation Mosaic"),
   (15, "Snow and Ice"),
   (16, "Barren"),
   (17, "Water Bodies")]

/-- The data-model invariant on a sample table: every row's
(identifier, name) pair comes from the fixed 17-entry enumeration. -/
def WellFormedTable (df : List Sample) : Prop :=
  ∀ s ∈ df, (s.land_cover_class, s.land_cover_name) ∈ LAND_COVER_CLASSES

instance (df : List Sample) : Decidable (WellFormedTable df) :=
  inferInstanceAs (Decidable
    (∀ s ∈ df, (s.land_cover_class, s.land_cover_name) ∈ LAND_COVER_CLASSES))

/-- Number of rows of `df` whose `land_cover_class` equals `c`
(`len(df[df['land_cover_class'] == c])`, and the per-class entries of
`value_counts()` on that column). -/
def countClass (df : List Sample) (c : Nat) : Nat :=
  (df.filter fun s => s.land_cover_class == c).length

/-- Number of rows of `df` whose `land_cover_name` equals `n`
(the entries of `value_counts()` on the `land_cover_name` column,
`counts.get(n, 0)`). -/
def countName (df : List Sample) (n : String) : Nat :=
  (df.filter fun s => s.land_cover_name == n).length

/-- The `land_cover_class` column of `df`. -/
def classesOf (df : List Sample) : List Nat :=
  df.map (fun s => s.land_cover_class)

/-- The `land_cover_name` column of `df`. -/
def namesOf (df : List Sample) : List String :=
  df.map (fun s => s.land_cover_name)

/-- `df.groupby('land_cover_class')['land_cover_name'].first()` applied to
class `c`: the name carried by the first row of class `c` (only ever read for
classes present in `df`; the default is never reached on the valid domain). -/
def firstNameOf (df : List Sample) (c : Nat) : String :=
  match df.find? (fun s => s.land_cover_class == c) with
  | some s => s.land_cover_name
  | none => ""

/-- Python `dict` assignment `d[k] = v`: replaces the value in place if the
key is present (keeping its insertion position), appends otherwise. -/
def dictInsert {β : Type} (d : List (String × β)) (k : String) (v : β) :
    List (String × β) :=
  if d.any (fun p => p.1 == k) then
    d.map (fun p => if p.1 == k then (k, v) else p)
  else d ++ [(k, v)]

/-! ## LULCAnalyzer (src/lulc_analyzer.py) -/

/-- `LULCAnalyzer.PIXEL_AREA_KM2` (500m × 500m = 0.25 km²). -/
def PIXEL_AREA_KM2 : ℚ := 1 / 4

/-- One value of the `class_statistics` mapping. -/
structure ClassStat where
  class_id : Nat
  pixel_count : Nat
  area_km2 : ℚ
  percentage : ℚ
deriving DecidableEq, Repr

/-- The result dict of `LULCAnalyzer.analyze_area_coverage`; Python dicts
keyed by class name are insertion-ordered association lists. -/
structure AreaResults where
  year : Int
  total_pixels : Nat
  total_area_km2 : ℚ
  class_statistics : List (String × ClassStat)
  class_percentages : List (String × ℚ)
  total_classes : Nat
  top_5_classes : List (String × ℚ)
deriving DecidableEq, Repr

/-- A legal enumeration of `df['land_cover_class'].value_counts()`:
the distinct class identifiers of `df`, each exactly once, with counts in
non-increasing order.  pandas pins down nothing more (the descending sort is
unstable), so the tie order is free. -/
def ValidVCOrder (df : List Sample) (vcOrder : List Nat) : Prop :=
  vcOrder.Nodup ∧
  (∀ c ∈ vcOrder, c ∈ classesOf df) ∧
  (∀ c ∈ classesOf df, c ∈ vcOrder) ∧
  vcOrder.Pairwise (fun a b => countClass df b ≤ countClass df a)

instance (df : List Sample) (vcOrder : List Nat) :
    Decidable (ValidVCOrder df vcOrder) :=
  inferInstanceAs (Decidable (vcOrder.Nodup ∧
    (∀ c ∈ vcOrder, c ∈ classesOf df) ∧
    (∀ c ∈ classesOf df, c ∈ vcOrder) ∧
    vcOrder.Pairwise (fun a b => countClass df b ≤ countClass df a)))

/-- Descending comparison on `(class name, percentage)` pairs: the key of
`sorted(class_percentages.items(), key=lambda x: x[1], reverse=True)`. -/
def descPct (a b : String × ℚ) : Prop := b.2 ≤ a.2

instance : DecidableRel descPct := fun a b =>
  inferInstanceAs (Decidable (b.2 ≤ a.2))

instance : IsTotal (String × ℚ) descPct := ⟨fun a b => le_total b.2 a.2⟩

instance : IsTrans (String × ℚ) descPct := ⟨fun _ _ _ h1 h2 => le_trans h2 h1⟩

/-- The per-class loop of `analyze_area_coverage` (lines 48–59), iterating
over `class_counts.items()` in the order `vcOrder` and building the two
result dicts. -/
def classDictsLoop (df : List Sample) :
    List Nat → List (String × ClassStat) × List (String × ℚ) →
    List (String × ClassStat) × List (String × ℚ)
  | [], acc => acc
  | c :: rest, acc =>
    let count := countClass df c
    let area_km2 : ℚ := (count : ℚ) * PIXEL_AREA_KM2
    let percentage : ℚ := ((count : ℚ) / (df.length : ℚ)) * 100
    let class_name := firstNameOf df c
    classDictsLoop df rest
      (dictInsert acc.1 class_name
        { class_id := c, pixel_count := count,
          area_km2 := area_km2, percentage := percentage },
       dictInsert acc.2 class_name percentage)

/-- `LULCAnalyzer.analyze_area_coverage(df, year)`, with the value-counts
enumeration made explicit as `vcOrder` (see `ValidVCOrder`). -/
def analyze_area_coverage (df : List Sample) (year : Int)
    (vcOrder : List Nat) : AreaResults :=
  let dicts := classDictsLoop df vcOrder ([], [])
  { year := year
    total_pixels := df.length
    total_area_km2 := (df.length : ℚ) * PIXEL_AREA_KM2
    class_statistics := dicts.1
    class_percentages := dicts.2
    total_classes := vcOrder.length
    top_5_classes := (List.insertionSort descPct dicts.2).take 5 }

/-! ## ChangeAnalyzer (src/change_analyzer.py) -/

/-- One element of the `area_changes` list (lines 105–111). -/
structure ChangeRecord where
  class_name : String
  pixels_start : Nat
  pixels_end : Nat
  change_pixels : Int
  change_percentage : ℚ
deriving DecidableEq, Repr

/-- The composite forest / urban record (lines 66–78). -/
structure CompositeChange where
  start : Nat
  finish : Nat
  change : Int
  change_pct : ℚ
deriving DecidableEq, Repr

/-- The result dict of `ChangeAnalyzer.analyze_changes`.  The `Option` fields
are the keys that are absent from the dict on the `len(years) < 2` early
return. -/
structure ChangeResults where
  years_analyzed : List Int
  total_transitions : Nat
  major_changes : List ChangeRecord
  area_changes : Option (List ChangeRecord)
  forest_change : Option CompositeChange
  urban_change : Option CompositeChange
  summary : Option String
deriving DecidableEq, Repr

/-- A legal iteration order of the Python set
`set(counts_start.index) | set(counts_end.index)`: each class name appearing
in either table, exactly once, in an arbitrary (hash-dependent) order. -/
def ValidClassOrder (df_start df_end : List Sample) (order : List String) :
    Prop :=
  order.Nodup ∧
  (∀ n ∈ order, n ∈ namesOf df_start ∨ n ∈ namesOf df_end) ∧
  (∀ n ∈ namesOf df_start, n ∈ order) ∧
  (∀ n ∈ namesOf df_end, n ∈ order)

instance (df_start df_end : List Sample) (order : List String) :
    Decidable (ValidClassOrder df_start df_end order) :=
  inferInstanceAs (Decidable (order.Nodup ∧
    (∀ n ∈ order, n ∈ namesOf df_start ∨ n ∈ namesOf df_end) ∧
    (∀ n ∈ namesOf df_start, n ∈ order) ∧
    (∀ n ∈ namesOf df_end, n ∈ order)))

/-- The body of the per-class loop of `_calculate_area_changes`
(lines 95–111). -/
def mkChangeRecord (df_start df_end : List Sample) (name : String) :
    ChangeRecord :=
  let count_start := countName df_start name
  let count_end := countName df_end name
  let change : Int := (count_end : Int) - (count_start : Int)
  let change_pct : ℚ :=
    if count_start > 0 then ((change : ℚ) / (count_start : ℚ)) * 100
    else if count_end > 0 then 100 else 0
  { class_name := name, pixels_start := count_start,
    pixels_end := count_end, change_pixels := change,
    change_percentage := change_pct }

/-- Descending comparison on absolute pixel change: the key of
`changes.sort(key=lambda x: abs(x['change_pixels']), reverse=True)`. -/
def descDelta (a b : ChangeRecord) : Prop :=
  b.change_pixels.natAbs ≤ a.change_pixels.natAbs

instance : DecidableRel descDelta := fun a b =>
  inferInstanceAs (Decidable (b.change_pixels.natAbs ≤ a.change_pixels.natAbs))

instance : IsTotal ChangeRecord descDelta :=
  ⟨fun a b => Nat.le_total b.change_pixels.natAbs a.change_pixels.natAbs⟩

instance : IsTrans ChangeRecord descDelta :=
  ⟨fun _ _ _ h1 h2 => le_trans h2 h1⟩

/-- `ChangeAnalyzer._calculate_area_changes(df_start, df_end, ...)` with the
set-iteration order made explicit as `order` (see `ValidClassOrder`). -/
def calculate_area_changes (df_start df_end : List Sample)
    (order : List String) : List ChangeRecord :=
  List.insertionSort descDelta (order.map (mkChangeRecord df_start df_end))

/-- `ChangeAnalyzer._calculate_total_forest_area`:
`len(df[df['land_cover_class'].isin([1, 2, 3, 4, 5])])`. -/
def calculate_total_forest_area (df : List Sample) : Nat :=
  (df.filter fun s => [1, 2, 3, 4, 5].contains s.land_cover_class).length

/-- `len(df[df['land_cover_class'] == 13])` (lines 63–64). -/
def totalUrban (df : List Sample) : Nat :=
  (df.filter fun s => s.land_cover_class == 13).length

/-- Python `"{:+.1f}".format(q)`: explicit sign, one decimal digit,
round-half-to-even applied to the exact rational value. -/
def fmtSigned1 (q : ℚ) : String :=
  let x : ℚ := |q| * 10
  let a : Nat := x.num.toNat
  let b : Nat := x.den
  let f : Nat := a / b
  let r : Nat := a % b
  let n : Nat :=
    if 2 * r < b then f
    else if b < 2 * r then f + 1
    else if f % 2 = 0 then f else f + 1
  (if q < 0 then "-" else "+") ++ toString (n / 10) ++ "." ++ toString (n % 10)

/-- `ChangeAnalyzer._generate_summary` (lines 123–132).  In the source it
receives the whole result dict; the three entries it reads
(`major_changes`, `forest_change['change_pct']`, `urban_change['change_pct']`)
are passed directly, as they are always present at the call site. -/
def generate_summary (major_changes : List ChangeRecord)
    (forest_pct urban_pct : ℚ) : String :=
  if major_changes.length = 0 then "No major land cover changes detected"
  else
    ("Forest change: " ++ fmtSigned1 forest_pct ++ "%, Urban change: " ++
      fmtSigned1 urban_pct ++ "%")

/-- The result built by the main branch of `analyze_changes`
(lines 40–82), reached when `len(years) >= 2` and neither composite
division raises. -/
def analyze_changes_main (all_year_data : Int → List Sample)
    (years : List Int) (order : List String) : ChangeResults :=
  let year_start := years.headI
  let year_end := years.getLastI
  let df_start := all_year_data year_start
  let df_end := all_year_data year_end
  let area_changes := calculate_area_changes df_start df_end order
  let major_changes :=
    area_changes.filter fun c => decide ((2 : ℚ) < |c.change_percentage|)
  let tfs := calculate_total_forest_area df_start
  let tfe := calculate_total_forest_area df_end
  let tus := totalUrban df_start
  let tue := totalUrban df_end
  let forest_pct : ℚ := (((tfe : ℚ) - (tfs : ℚ)) / (tfs : ℚ)) * 100
  let urban_pct : ℚ := (((tue : ℚ) - (tus : ℚ)) / (tus : ℚ)) * 100
  { years_analyzed := years
    total_transitions := area_changes.length
    major_changes := major_changes
    area_changes := some area_changes
    forest_change := some
      { start := tfs, finish := tfe,
        change := (tfe : Int) - (tfs : Int), change_pct := forest_pct }
    urban_change := some
      { start := tus, finish := tue,
        change := (tue : Int) - (tus : Int), change_pct := urban_pct }
    summary := some (generate_summary major_changes forest_pct urban_pct) }

/-- `ChangeAnalyzer.analyze_changes(all_year_data, years)` with the
set-iteration order of `_calculate_area_changes` made explicit.  The two
unguarded integer divisions `... / total_forest_start` (line 70) and
`... / total_urban_start` (line 77) raise `ZeroDivisionError` when their
denominator is zero; a raise is modelled as `none`.  (The per-class records
computed before the raise are discarded with it.) -/
def analyze_changes (all_year_data : Int → List Sample) (years : List Int)
    (order : List String) : Option ChangeResults :=
  if years.length < 2 then
    some { years_analyzed := years, total_transitions := 0,
           major_changes := [], area_changes := none, forest_change := none,
           urban_change := none, summary := none }
  else if calculate_total_forest_area (all_year_data years.headI) = 0 then
    none
  else if totalUrban (all_year_data years.headI) = 0 then
    none
  else
    some (analyze_changes_main all_year_data years order)

/-- Modelled from the spec: the percentage-delta policy of §4.2, stated in
the spec's own words (`pct = 100 × delta / start` when `start > 0`, sentinel
`100` when `start == 0 < end`, `0` when both are zero), for comparison with
the percentage the code computes. -/
def specPct (s e : Nat) : ℚ :=
  if 0 < s then 100 * ((e : ℚ) - (s : ℚ)) / (s : ℚ)
  else if 0 < e then 100 else 0

/-! ## Helper lemmas -/

/-- On the non-degenerate, non-raising domain, `analyze_changes` returns the
main-branch result. -/
theorem analyze_changes_eq_main (all_year_data : Int → List Sample)
    (years : List Int) (order : List String) (h2 : 2 ≤ years.length)
    (hf : 0 < calculate_total_forest_area (all_year_data years.headI))
    (hu : 0 < totalUrban (all_year_data years.headI)) :
    analyze_changes all_year_data years order =
      some (analyze_changes_main all_year_data years order) := by
  rw [analyze_changes, if_neg (by omega), if_neg (by omega), if_neg (by omega)]

/-- Field-level description of the record built for one class name by the
loop body of `_calculate_area_changes`; its percentage agrees with the
spec's §4.2 policy `specPct`. -/
theorem mkChangeRecord_fields (df_start df_end : List Sample) (name : String) :
    (mkChangeRecord df_start df_end name).class_name = name ∧
    (mkChangeRecord df_start df_end name).pixels_start =
      countName df_start name ∧
    (mkChangeRecord df_start df_end name).pixels_end =
      countName df_end name ∧
    (mkChangeRecord df_start df_end name).change_pixels =
      ((countName df_end name : Int) - (countName df_start name : Int)) ∧
    (mkChangeRecord df_start df_end name).change_percentage =
      specPct (countName df_start name) (countName df_end name) := by
  refine ⟨rfl, rfl, rfl, rfl, ?_⟩
  simp only [mkChangeRecord, specPct]
  split_ifs with h h2
  · push_cast
    ring
  · rfl
  · rfl

/-! ## C1 -/

/-- C1: the code evaluated at the spec's concrete scenario.  With zero
forest samples in the start year and five in the end year (first conjunct),
`analyze_changes` performs the unguarded division `... / total_forest_start`
of line 70 and raises `ZeroDivisionError`, modelled as `none`; likewise for
a zero urban start count (second conjunct, line 77).  It neither applies the
sentinel policy nor surfaces a documented error, so the claim fails on the
code. -/
theorem c1_zero_start_composite_raises :
    analyze_changes
      (fun y => if y = 2020 then ([⟨13, "Urban and Built-up"⟩] : List Sample)
        else List.replicate 5 ⟨1, "Evergreen Needleleaf Forest"⟩)
      [2020, 2021] ["Urban and Built-up", "Evergreen Needleleaf Forest"] =
      none ∧
    analyze_changes
      (fun y => if y = 2020 then
          ([⟨1, "Evergreen Needleleaf Forest"⟩] : List Sample)
        else [⟨13, "Urban and Built-up"⟩])
      [2020, 2021] ["Evergreen Needleleaf Forest", "Urban and Built-up"] =
      none :=
  ⟨rfl, rfl⟩

/-! ## C4 -/

/-- C4: with fewer than two years, `analyze_changes` returns the degenerate
result (zero transitions, empty major-change list, no other keys) without
any error. -/
theorem c4_degenerate_years (all_year_data : Int → List Sample)
    (years : List Int) (order : List String) (h : years.length < 2) :
    analyze_changes all_year_data years order =
      some { years_analyzed := years, total_transitions := 0,
             major_changes := [], area_changes := none, forest_change := none,
             urban_change := none, summary := none } := by
  rw [analyze_changes, if_pos h]

/-- Witness for C4 at the empty year list. -/
theorem c4_degenerate_years_witness :
    ([] : List Int).length < 2 ∧
      analyze_changes (fun _ => []) [] [] =
        some { years_analyzed := [], total_transitions := 0,
               major_changes := [], area_changes := none,
               forest_change := none, urban_change := none,
               summary := none } :=
  ⟨by decide, c4_degenerate_years (fun _ => []) [] [] (by decide)⟩

/-! ## C2 -/

/-- C2: every record of the per-class change list has
`delta = end − start` on the counts of its own class name, and its
percentage is exactly the spec's policy (`100 × delta / start` for a
positive start, sentinel `100` for `start = 0 < end`, `0` for
`start = end = 0`); and every class name of either table has a record. -/
theorem c2_per_class_records (df_start df_end : List Sample)
    (order : List String) (h : ValidClassOrder df_start df_end order) :
    (∀ r ∈ calculate_area_changes df_start df_end order,
      r.pixels_start = countName df_start r.class_name ∧
      r.pixels_end = countName df_end r.class_name ∧
      r.change_pixels = ((r.pixels_end : Int) - (r.pixels_start : Int)) ∧
      r.change_percentage = specPct r.pixels_start r.pixels_end) ∧
    (∀ name : String, name ∈ namesOf df_start ∨ name ∈ namesOf df_end →
      ∃ r ∈ calculate_area_changes df_start df_end order,
        r.class_name = name) := by
  constructor
  · intro r hr
    rw [calculate_area_changes, List.mem_insertionSort] at hr
    obtain ⟨name, hname, rfl⟩ := List.mem_map.mp hr
    obtain ⟨hc, hs, he, hd, hp⟩ := mkChangeRecord_fields df_start df_end name
    rw [hc, hs, he, hd, hp]
    exact ⟨rfl, rfl, rfl, rfl⟩
  · intro name hn
    refine ⟨mkChangeRecord df_start df_end name, ?_, rfl⟩
    rw [calculate_area_changes, List.mem_insertionSort]
    refine List.mem_map_of_mem _ ?_
    rcases hn with h1 | h1
    · exact h.2.2.1 name h1
    · exact h.2.2.2 name h1

/-- Witness for C2 on a concrete pair of tables. -/
theorem c2_per_class_records_witness :
    ValidClassOrder ([⟨12, "Croplands"⟩] : List Sample)
      ([⟨12, "Croplands"⟩, ⟨17, "Water Bodies"⟩] : List Sample)
      ["Croplands", "Water Bodies"] ∧
    ((∀ r ∈ calculate_area_changes ([⟨12, "Croplands"⟩] : List Sample)
        ([⟨12, "Croplands"⟩, ⟨17, "Water Bodies"⟩] : List Sample)
        ["Croplands", "Water Bodies"],
      r.pixels_start =
        countName ([⟨12, "Croplands"⟩] : List Sample) r.class_name ∧
      r.pixels_end =
        countName ([⟨12, "Croplands"⟩, ⟨17, "Water Bodies"⟩] : List Sample)
          r.class_name ∧
      r.change_pixels = ((r.pixels_end : Int) - (r.pixels_start : Int)) ∧
      r.change_percentage = specPct r.pixels_start r.pixels_end) ∧
    (∀ name : String,
      name ∈ namesOf ([⟨12, "Croplands"⟩] : List Sample) ∨
        name ∈ namesOf
          ([⟨12, "Croplands"⟩, ⟨17, "Water Bodies"⟩] : List Sample) →
      ∃ r ∈ calculate_area_changes ([⟨12, "Croplands"⟩] : List Sample)
          ([⟨12, "Croplands"⟩, ⟨17, "Water Bodies"⟩] : List Sample)
          ["Croplands", "Water Bodies"],
        r.class_name = name)) :=
  ⟨by decide, c2_per_class_records _ _ _ (by decide)⟩

/-! ## C3 -/

/-- C3: `major_changes` is exactly the sublist of the per-class change list
whose records have absolute percentage delta strictly greater than 2, in the
same relative order. -/
theorem c3_major_change_filter (all_year_data : Int → List Sample)
    (years : List Int) (order : List String) (h2 : 2 ≤ years.length)
    (hf : 0 < calculate_total_forest_area (all_year_data years.headI))
    (hu : 0 < totalUrban (all_year_data years.headI)) :
    analyze_changes all_year_data years order =
      some (analyze_changes_main all_year_data years order) ∧
    (∀ r : ChangeRecord,
      r ∈ (analyze_changes_main all_year_data years order).major_changes ↔
        r ∈ calculate_area_changes (all_year_data years.headI)
            (all_year_data years.getLastI) order ∧
          2 < |r.change_percentage|) ∧
    List.Sublist
      (analyze_changes_main all_year_data years order).major_changes
      (calculate_area_changes (all_year_data years.headI)
        (all_year_data years.getLastI) order) := by
  refine ⟨analyze_changes_eq_main _ _ _ h2 hf hu, ?_, ?_⟩
  · intro r
    show r ∈ List.filter _ _ ↔ _
    rw [List.mem_filter, decide_eq_true_eq]
  · exact List.filter_sublist _

/-- Witness for C3 on a concrete successful run. -/
theorem c3_major_change_filter_witness :
    2 ≤ ([2020, 2021] : List Int).length ∧
    0 < calculate_total_forest_area
      ((fun y => if y = 2020 then
          ([⟨1, "Evergreen Needleleaf Forest"⟩, ⟨13, "Urban and Built-up"⟩] :
            List Sample)
        else [⟨13, "Urban and Built-up"⟩]) (([2020, 2021] : List Int).headI)) ∧
    0 < totalUrban
      ((fun y => if y = 2020 then
          ([⟨1, "Evergreen Needleleaf Forest"⟩, ⟨13, "Urban and Built-up"⟩] :
            List Sample)
        else [⟨13, "Urban and Built-up"⟩]) (([2020, 2021] : List Int).headI)) ∧
    (analyze_changes
      (fun y => if y = 2020 then
          ([⟨1, "Evergreen Needleleaf Forest"⟩, ⟨13, "Urban and Built-up"⟩] :
            List Sample)
        else [⟨13, "Urban and Built-up"⟩])
      [2020, 2021] ["Evergreen Needleleaf Forest", "Urban and Built-up"] =
      some (analyze_changes_main
        (fun y => if y = 2020 then
            ([⟨1, "Evergreen Needleleaf Forest"⟩, ⟨13, "Urban and Built-up"⟩] :
              List Sample)
          else [⟨13, "Urban and Built-up"⟩])
        [2020, 2021] ["Evergreen Needleleaf Forest", "Urban and Built-up"]) ∧
    (∀ r : ChangeRecord,
      r ∈ (analyze_changes_main
        (fun y => if y = 2020 then
            ([⟨1, "Evergreen Needleleaf Forest"⟩, ⟨13, "Urban and Built-up"⟩] :
              List Sample)
          else [⟨13, "Urban and Built-up"⟩])
        [2020, 2021]
        ["Evergreen Needleleaf Forest", "Urban and Built-up"]).major_changes ↔
        r ∈ calculate_area_changes
            ((fun y => if y = 2020 then
                ([⟨1, "Evergreen Needleleaf Forest"⟩,
                  ⟨13, "Urban and Built-up"⟩] : List Sample)
              else [⟨13, "Urban and Built-up"⟩])
              (([2020, 2021] : List Int).headI))
            ((fun y => if y = 2020 then
                ([⟨1, "Evergreen Needleleaf Forest"⟩,
                  ⟨13, "Urban and Built-up"⟩] : List Sample)
              else [⟨13, "Urban and Built-up"⟩])
              (([2020, 2021] : List Int).getLastI))
            ["Evergreen Needleleaf Forest", "Urban and Built-up"] ∧
          2 < |r.change_percentage|) ∧
    List.Sublist
      (analyze_changes_main
        (fun y => if y = 2020 then
            ([⟨1, "Evergreen Needleleaf Forest"⟩, ⟨13, "Urban and Built-up"⟩] :
              List Sample)
          else [⟨13, "Urban and Built-up"⟩])
        [2020, 2021]
        ["Evergreen Needleleaf Forest", "Urban and Built-up"]).major_changes
      (calculate_area_changes
        ((fun y => if y = 2020 then
            ([⟨1, "Evergreen Needleleaf Forest"⟩, ⟨13, "Urban and Built-up"⟩] :
              List Sample)
          else [⟨13, "Urban and Built-up"⟩]) (([2020, 2021] : List Int).headI))
        ((fun y => if y = 2020 then
            ([⟨1, "Evergreen Needleleaf Forest"⟩, ⟨13, "Urban and Built-up"⟩] :
              List Sample)
          else [⟨13, "Urban and Built-up"⟩])
          (([2020, 2021] : List Int).getLastI))
        ["Evergreen Needleleaf Forest", "Urban and Built-up"])) :=
  ⟨by decide, by decide, by decide,
    c3_major_change_filter _ _ _ (by decide) (by decide) (by decide)⟩

/-! ## C5 -/

/-- C5 (amended): for every iteration order of the class-name set, the
per-class change list is sorted by descending absolute pixel delta and is a
permutation of the per-class records; the relative order of records with
equal absolute delta follows the iteration order of the Python set, which
the code leaves unspecified (see `c5_tie_order_not_deterministic`). -/
theorem c5_sorted_by_abs_delta (df_start df_end : List Sample)
    (order : List String) :
    List.Sorted descDelta (calculate_area_changes df_start df_end order) ∧
    List.Perm (calculate_area_changes df_start df_end order)
      (order.map (mkChangeRecord df_start df_end)) :=
  ⟨List.sorted_insertionSort descDelta _, List.perm_insertionSort descDelta _⟩

/-- Counterexample to C5 as stated: the same pair of tables, under two legal
iteration orders of the class-name set, yields two different per-class
change lists — the two records tie at absolute delta 1 and come out in
either order — so records with equal absolute delta do not appear in a
deterministic order. -/
theorem c5_tie_order_not_deterministic :
    ValidClassOrder [] ([⟨1, "A"⟩, ⟨2, "B"⟩] : List Sample) ["A", "B"] ∧
    ValidClassOrder [] ([⟨1, "A"⟩, ⟨2, "B"⟩] : List Sample) ["B", "A"] ∧
    (calculate_area_changes [] ([⟨1, "A"⟩, ⟨2, "B"⟩] : List Sample)
      ["A", "B"]).map ChangeRecord.change_pixels = [1, 1] ∧
    (calculate_area_changes [] ([⟨1, "A"⟩, ⟨2, "B"⟩] : List Sample)
      ["A", "B"]).map ChangeRecord.class_name = ["A", "B"] ∧
    (calculate_area_changes [] ([⟨1, "A"⟩, ⟨2, "B"⟩] : List Sample)
      ["B", "A"]).map ChangeRecord.class_name = ["B", "A"] :=
  ⟨by decide, by decide, by decide, by decide, by decide⟩

/-! ## C8 -/

/-- C8: the summary is the fixed literal when `major_changes` is empty, and
otherwise the fixed format embedding the two composite percentage deltas
through `fmtSigned1`, the model of Python's `"{:+.1f}"` (explicit sign, one
decimal place). -/
theorem c8_summary_format (all_year_data : Int → List Sample)
    (years : List Int) (order : List String) (h2 : 2 ≤ years.length)
    (hf : 0 < calculate_total_forest_area (all_year_data years.headI))
    (hu : 0 < totalUrban (all_year_data years.headI)) :
    analyze_changes all_year_data years order =
      some (analyze_changes_main all_year_data years order) ∧
    ((analyze_changes_main all_year_data years order).major_changes = [] →
      (analyze_changes_main all_year_data years order).summary =
        some ("No major land cover changes detected")) ∧
    ((analyze_changes_main all_year_data years order).major_changes ≠ [] →
      ∃ f u : CompositeChange,
        (analyze_changes_main all_year_data years order).forest_change =
          some f ∧
        (analyze_changes_main all_year_data years order).urban_change =
          some u ∧
        (analyze_changes_main all_year_data years order).summary =
          some ("Forest change: " ++ fmtSigned1 f.change_pct ++
            "%, Urban change: " ++ fmtSigned1 u.change_pct ++ "%")) := by
  refine ⟨analyze_changes_eq_main _ _ _ h2 hf hu, ?_, ?_⟩
  · intro hempty
    show some (generate_summary _ _ _) = _
    rw [generate_summary, if_pos]
    show (analyze_changes_main all_year_data years order).major_changes.length
      = 0
    rw [hempty]
    rfl
  · intro hne
    refine ⟨_, _, rfl, rfl, ?_⟩
    show some (generate_summary _ _ _) = _
    rw [generate_summary, if_neg]
    intro hlen
    exact hne (List.eq_nil_of_length_eq_zero hlen)

/-- Witness for C8 on a concrete successful run (same table both years, so
no major changes and the fixed literal is returned). -/
theorem c8_summary_format_witness :
    2 ≤ ([2020, 2021] : List Int).length ∧
    0 < calculate_total_forest_area
      ((fun _ => ([⟨1, "Evergreen Needleleaf Forest"⟩,
        ⟨13, "Urban and Built-up"⟩] : List Sample))
        (([2020, 2021] : List Int).headI)) ∧
    0 < totalUrban
      ((fun _ => ([⟨1, "Evergreen Needleleaf Forest"⟩,
        ⟨13, "Urban and Built-up"⟩] : List Sample))
        (([2020, 2021] : List Int).headI)) ∧
    (analyze_changes
      (fun _ => ([⟨1, "Evergreen Needleleaf Forest"⟩,
        ⟨13, "Urban and Built-up"⟩] : List Sample))
      [2020, 2021] ["Evergreen Needleleaf Forest", "Urban and Built-up"] =
      some (analyze_changes_main
        (fun _ => ([⟨1, "Evergreen Needleleaf Forest"⟩,
          ⟨13, "Urban and Built-up"⟩] : List Sample))
        [2020, 2021] ["Evergreen Needleleaf Forest", "Urban and Built-up"]) ∧
    ((analyze_changes_main
        (fun _ => ([⟨1, "Evergreen Needleleaf Forest"⟩,
          ⟨13, "Urban and Built-up"⟩] : List Sample))
        [2020, 2021]
        ["Evergreen Needleleaf Forest", "Urban and Built-up"]).major_changes =
        [] →
      (analyze_changes_main
        (fun _ => ([⟨1, "Evergreen Needleleaf Forest"⟩,
          ⟨13, "Urban and Built-up"⟩] : List Sample))
        [2020, 2021]
        ["Evergreen Needleleaf Forest", "Urban and Built-up"]).summary =
        some ("No major land cover changes detected")) ∧
    ((analyze_changes_main
        (fun _ => ([⟨1, "Evergreen Needleleaf Forest"⟩,
          ⟨13, "Urban and Built-up"⟩] : List Sample))
        [2020, 2021]
        ["Evergreen Needleleaf Forest", "Urban and Built-up"]).major_changes ≠
        [] →
      ∃ f u : CompositeChange,
        (analyze_changes_main
          (fun _ => ([⟨1, "Evergreen Needleleaf Forest"⟩,
            ⟨13, "Urban and Built-up"⟩] : List Sample))
          [2020, 2021]
          ["Evergreen Needleleaf Forest", "Urban and Built-up"]).forest_change
          = some f ∧
        (analyze_changes_main
          (fun _ => ([⟨1, "Evergreen Needleleaf Forest"⟩,
            ⟨13, "Urban and Built-up"⟩] : List Sample))
          [2020, 2021]
          ["Evergreen Needleleaf Forest", "Urban and Built-up"]).urban_change
          = some u ∧
        (analyze_changes_main
          (fun _ => ([⟨1, "Evergreen Needleleaf Forest"⟩,
            ⟨13, "Urban and Built-up"⟩] : List Sample))
          [2020, 2021]
          ["Evergreen Needleleaf Forest", "Urban and Built-up"]).summary =
          some ("Forest change: " ++ fmtSigned1 f.change_pct ++
            "%, Urban change: " ++ fmtSigned1 u.change_pct ++ "%"))) :=
  ⟨by decide, by decide, by decide,
    c8_summary_format _ _ _ (by decide) (by decide) (by decide)⟩

/-! ## Helper lemmas for the area aggregator -/

/-- A dict assignment with a key not yet present is an append. -/
theorem dictInsert_of_fresh {β : Type} (d : List (String × β)) (k : String)
    (v : β) (h : ∀ p ∈ d, p.1 ≠ k) : dictInsert d k v = d ++ [(k, v)] := by
  have hany : d.any (fun p => p.1 == k) = false := by
    rw [List.any_eq_false]
    intro p hp
    simpa using h p hp
  simp [dictInsert, hany]

/-- The `class_statistics` value built for class `c`. -/
def statFor (df : List Sample) (c : Nat) : ClassStat :=
  { class_id := c, pixel_count := countClass df c,
    area_km2 := (countClass df c : ℚ) * PIXEL_AREA_KM2,
    percentage := ((countClass df c : ℚ) / (df.length : ℚ)) * 100 }

/-- The `class_percentages` value built for class `c`. -/
def pctFor (df : List Sample) (c : Nat) : ℚ :=
  ((countClass df c : ℚ) / (df.length : ℚ)) * 100

/-- When the first names of the remaining classes are distinct and fresh for
both accumulators, the per-class loop appends one entry per class to each
dict. -/
theorem classDictsLoop_eq (df : List Sample) (order : List Nat) :
    ∀ (acc1 : List (String × ClassStat)) (acc2 : List (String × ℚ)),
    (order.map (firstNameOf df)).Nodup →
    (∀ c ∈ order, ∀ p ∈ acc1, p.1 ≠ firstNameOf df c) →
    (∀ c ∈ order, ∀ p ∈ acc2, p.1 ≠ firstNameOf df c) →
    classDictsLoop df order (acc1, acc2) =
      (acc1 ++ order.map (fun c => (firstNameOf df c, statFor df c)),
       acc2 ++ order.map (fun c => (firstNameOf df c, pctFor df c))) := by
  induction order with
  | nil =>
    intro acc1 acc2 _ _ _
    simp [classDictsLoop]
  | cons c rest ih =>
    intro acc1 acc2 hnd h1 h2
    rw [List.map_cons, List.nodup_cons] at hnd
    rw [classDictsLoop]
    show classDictsLoop df rest
        (dictInsert acc1 (firstNameOf df c) _,
         dictInsert acc2 (firstNameOf df c) _) = _
    rw [dictInsert_of_fresh _ _ _ (h1 c (List.mem_cons_self c rest)),
      dictInsert_of_fresh _ _ _ (h2 c (List.mem_cons_self c rest))]
    show classDictsLoop df rest
        (acc1 ++ [(firstNameOf df c, statFor df c)],
         acc2 ++ [(firstNameOf df c, pctFor df c)]) = _
    rw [ih (acc1 ++ [(firstNameOf df c, statFor df c)])
      (acc2 ++ [(firstNameOf df c, pctFor df c)]) hnd.2 ?_ ?_]
    · simp
    · intro d hd p hp
      rcases List.mem_append.mp hp with hp1 | hp1
      · exact h1 d (List.mem_cons_of_mem c hd) p hp1
      · have hp2 : p = (firstNameOf df c, statFor df c) := by simpa using hp1
        rw [hp2]
        intro hcontra
        refine hnd.1 ?_
        rw [show firstNameOf df c = firstNameOf df d from hcontra]
        exact List.mem_map_of_mem (firstNameOf df) hd
    · intro d hd p hp
      rcases List.mem_append.mp hp with hp1 | hp1
      · exact h2 d (List.mem_cons_of_mem c hd) p hp1
      · have hp2 : p = (firstNameOf df c, pctFor df c) := by simpa using hp1
        rw [hp2]
        intro hcontra
        refine hnd.1 ?_
        rw [show firstNameOf df c = firstNameOf df d from hcontra]
        exact List.mem_map_of_mem (firstNameOf df) hd

/-- No two entries of the fixed enumeration share a display name. -/
theorem enum_names_inj :
    ∀ p ∈ LAND_COVER_CLASSES, ∀ q ∈ LAND_COVER_CLASSES,
      p.2 = q.2 → p.1 = q.1 := by decide

/-- For a class present in `df`, `firstNameOf` returns the name of an actual
row of that class. -/
theorem firstNameOf_mem_spec (df : List Sample) (c : Nat)
    (hc : c ∈ classesOf df) :
    ∃ s ∈ df, s.land_cover_class = c ∧
      firstNameOf df c = s.land_cover_name := by
  rw [classesOf, List.mem_map] at hc
  obtain ⟨t, ht, htc⟩ := hc
  cases hfind : df.find? (fun s => s.land_cover_class == c) with
  | none =>
    exfalso
    have := List.find?_eq_none.mp hfind t ht
    simp [htc] at this
  | some s =>
    refine ⟨s, List.mem_of_find?_eq_some hfind, ?_, ?_⟩
    · have := List.find?_some hfind
      simpa using this
    · simp [firstNameOf, hfind]

/-- Under the data-model invariant, distinct classes of `df` have distinct
first names. -/
theorem firstNames_nodup (df : List Sample) (vcOrder : List Nat)
    (hwf : WellFormedTable df) (hnd : vcOrder.Nodup)
    (hmem : ∀ c ∈ vcOrder, c ∈ classesOf df) :
    (vcOrder.map (firstNameOf df)).Nodup := by
  refine List.Nodup.map_on ?_ hnd
  intro x hx y hy hxy
  obtain ⟨s, hs, hsc, hsn⟩ := firstNameOf_mem_spec df x (hmem x hx)
  obtain ⟨t, ht, htc, htn⟩ := firstNameOf_mem_spec df y (hmem y hy)
  have hname : s.land_cover_name = t.land_cover_name := by
    rw [← hsn, ← htn, hxy]
  have := enum_names_inj _ (hwf s hs) _ (hwf t ht) hname
  simpa [hsc, htc] using this

/-- Summing the per-class counts over any exact enumeration of the classes
present in `df` recovers the number of rows. -/
theorem sum_countClass_eq_length (df : List Sample) (order : List Nat)
    (hnd : order.Nodup) (h1 : ∀ c ∈ order, c ∈ classesOf df)
    (h2 : ∀ c ∈ classesOf df, c ∈ order) :
    (order.map (countClass df)).sum = df.length := by
  have hcnt : ∀ c, countClass df c = (classesOf df).count c := by
    intro c
    rw [countClass, classesOf, List.count_eq_countP, List.countP_map,
      ← List.countP_eq_length_filter]
    rfl
  have hperm : List.Perm order (classesOf df).dedup := by
    rw [List.perm_ext_iff_of_nodup hnd (List.nodup_dedup _)]
    intro a
    rw [List.mem_dedup]
    exact ⟨fun h => h1 a h, fun h => h2 a h⟩
  calc (order.map (countClass df)).sum
      = (order.map (fun c => (classesOf df).count c)).sum := by
        rw [funext hcnt]
    _ = ((classesOf df).dedup.map (fun c => (classesOf df).count c)).sum :=
        (hperm.map _).sum_eq
    _ = (classesOf df).length := List.sum_map_count_dedup_eq_length _
    _ = df.length := by rw [classesOf, List.length_map]

/-- Under the data-model invariant and a legal value-counts enumeration, the
two result dicts of `analyze_area_coverage` list one entry per class, in
enumeration order. -/
theorem area_dicts_eq (df : List Sample) (year : Int) (vcOrder : List Nat)
    (hwf : WellFormedTable df) (hnd : vcOrder.Nodup)
    (hmem : ∀ c ∈ vcOrder, c ∈ classesOf df) :
    (analyze_area_coverage df year vcOrder).class_statistics =
      vcOrder.map (fun c => (firstNameOf df c, statFor df c)) ∧
    (analyze_area_coverage df year vcOrder).class_percentages =
      vcOrder.map (fun c => (firstNameOf df c, pctFor df c)) := by
  have h := classDictsLoop_eq df vcOrder [] []
    (firstNames_nodup df vcOrder hwf hnd hmem)
    (by intro c hc p hp; simp at hp) (by intro c hc p hp; simp at hp)
  constructor
  · show (classDictsLoop df vcOrder ([], [])).1 = _
    rw [h]
    simp
  · show (classDictsLoop df vcOrder ([], [])).2 = _
    rw [h]
    simp

/-! ## C7 -/

/-- C7: the class pixel counts sum to `total_pixels`, `total_area_km2` is
`total_pixels × 0.25`, and each class area is its count × 0.25. -/
theorem c7_pixel_count_sum (df : List Sample) (year : Int)
    (vcOrder : List Nat) (hwf : WellFormedTable df)
    (hvc : ValidVCOrder df vcOrder) :
    ((analyze_area_coverage df year vcOrder).class_statistics.map
      (fun p => p.2.pixel_count)).sum =
      (analyze_area_coverage df year vcOrder).total_pixels ∧
    (analyze_area_coverage df year vcOrder).total_area_km2 =
      ((analyze_area_coverage df year vcOrder).total_pixels : ℚ) *
        PIXEL_AREA_KM2 ∧
    ∀ p ∈ (analyze_area_coverage df year vcOrder).class_statistics,
      p.2.area_km2 = (p.2.pixel_count : ℚ) * PIXEL_AREA_KM2 := by
  obtain ⟨hcs, -⟩ := area_dicts_eq df year vcOrder hwf hvc.1 hvc.2.1
  refine ⟨?_, rfl, ?_⟩
  · rw [hcs, List.map_map]
    show (vcOrder.map (countClass df)).sum = df.length
    exact sum_countClass_eq_length df vcOrder hvc.1 hvc.2.1 hvc.2.2.1
  · intro p hp
    rw [hcs] at hp
    obtain ⟨c, hc, rfl⟩ := List.mem_map.mp hp
    rfl

/-- Witness for C7 on a concrete well-formed table. -/
theorem c7_pixel_count_sum_witness :
    WellFormedTable ([⟨1, "Evergreen Needleleaf Forest"⟩,
      ⟨13, "Urban and Built-up"⟩] : List Sample) ∧
    ValidVCOrder ([⟨1, "Evergreen Needleleaf Forest"⟩,
      ⟨13, "Urban and Built-up"⟩] : List Sample) [1, 13] ∧
    (((analyze_area_coverage ([⟨1, "Evergreen Needleleaf Forest"⟩,
        ⟨13, "Urban and Built-up"⟩] : List Sample) 2020
        [1, 13]).class_statistics.map (fun p => p.2.pixel_count)).sum =
      (analyze_area_coverage ([⟨1, "Evergreen Needleleaf Forest"⟩,
        ⟨13, "Urban and Built-up"⟩] : List Sample) 2020
        [1, 13]).total_pixels ∧
    (analyze_area_coverage ([⟨1, "Evergreen Needleleaf Forest"⟩,
      ⟨13, "Urban and Built-up"⟩] : List Sample) 2020 [1, 13]).total_area_km2 =
      ((analyze_area_coverage ([⟨1, "Evergreen Needleleaf Forest"⟩,
        ⟨13, "Urban and Built-up"⟩] : List Sample) 2020
        [1, 13]).total_pixels : ℚ) * PIXEL_AREA_KM2 ∧
    ∀ p ∈ (analyze_area_coverage ([⟨1, "Evergreen Needleleaf Forest"⟩,
        ⟨13, "Urban and Built-up"⟩] : List Sample) 2020
        [1, 13]).class_statistics,
      p.2.area_km2 = (p.2.pixel_count : ℚ) * PIXEL_AREA_KM2) :=
  ⟨by decide, by decide, c7_pixel_count_sum _ _ _ (by decide) (by decide)⟩

/-! ## C9 -/

/-- C9: for a non-empty well-formed table the per-class percentages sum to
exactly 100 (the float sum of the source is approximate; over the exact
rationals the identity is exact). -/
theorem c9_percentages_sum_100 (df : List Sample) (year : Int)
    (vcOrder : List Nat) (hne : df ≠ []) (hwf : WellFormedTable df)
    (hvc : ValidVCOrder df vcOrder) :
    ((analyze_area_coverage df year vcOrder).class_percentages.map
      Prod.snd).sum = 100 := by
  obtain ⟨-, hcp⟩ := area_dicts_eq df year vcOrder hwf hvc.1 hvc.2.1
  have hn0 : df.length ≠ 0 := fun h => hne (List.length_eq_zero.mp h)
  have hn : ((df.length : ℚ)) ≠ 0 := Nat.cast_ne_zero.mpr hn0
  rw [hcp, List.map_map]
  have hmap : vcOrder.map (Prod.snd ∘ fun c => (firstNameOf df c, pctFor df c))
      = vcOrder.map (fun c => ((countClass df c : ℚ)) *
        (100 / (df.length : ℚ))) := by
    refine List.map_congr_left ?_
    intro c hc
    show pctFor df c = _
    rw [pctFor]
    ring
  rw [hmap, List.sum_map_mul_right]
  have hcast : vcOrder.map (fun c => ((countClass df c : ℚ))) =
      (vcOrder.map (countClass df)).map (fun n => ((n : ℕ) : ℚ)) := by
    rw [List.map_map]
    rfl
  rw [hcast, ← Nat.cast_list_sum,
    sum_countClass_eq_length df vcOrder hvc.1 hvc.2.1 hvc.2.2.1]
  field_simp

/-- Witness for C9 on a concrete non-empty well-formed table. -/
theorem c9_percentages_sum_100_witness :
    ([⟨1, "Evergreen Needleleaf Forest"⟩, ⟨13, "Urban and Built-up"⟩] :
      List Sample) ≠ [] ∧
    WellFormedTable ([⟨1, "Evergreen Needleleaf Forest"⟩,
      ⟨13, "Urban and Built-up"⟩] : List Sample) ∧
    ValidVCOrder ([⟨1, "Evergreen Needleleaf Forest"⟩,
      ⟨13, "Urban and Built-up"⟩] : List Sample) [1, 13] ∧
    ((analyze_area_coverage ([⟨1, "Evergreen Needleleaf Forest"⟩,
      ⟨13, "Urban and Built-up"⟩] : List Sample) 2020
      [1, 13]).class_percentages.map Prod.snd).sum = 100 :=
  ⟨by decide, by decide, by decide,
    c9_percentages_sum_100 _ _ _ (by decide) (by decide) (by decide)⟩

/-! ## C6 -/

/-- C6 (amended): for every value-counts enumeration, `top_5_classes` has at
most 5 entries, is sorted by descending percentage, and every class left out
has a percentage no larger than every listed one; classes with equal
percentage appear in the value-counts enumeration order (preserved by the
stable final sort), which pandas does not guarantee to be the input
first-seen order (see `c6_equal_pct_not_input_order`). -/
theorem c6_top5_ranking (df : List Sample) (year : Int) (vcOrder : List Nat) :
    (analyze_area_coverage df year vcOrder).top_5_classes.length ≤ 5 ∧
    List.Sorted descPct (analyze_area_coverage df year vcOrder).top_5_classes ∧
    (∀ p ∈ (analyze_area_coverage df year vcOrder).class_percentages,
      p ∉ (analyze_area_coverage df year vcOrder).top_5_classes →
      ∀ q ∈ (analyze_area_coverage df year vcOrder).top_5_classes,
        p.2 ≤ q.2) := by
  have htop : (analyze_area_coverage df year vcOrder).top_5_classes =
      (List.insertionSort descPct
        (classDictsLoop df vcOrder ([], [])).2).take 5 := rfl
  have hcp : (analyze_area_coverage df year vcOrder).class_percentages =
      (classDictsLoop df vcOrder ([], [])).2 := rfl
  have hsorted : List.Sorted descPct
      (List.insertionSort descPct (classDictsLoop df vcOrder ([], [])).2) :=
    List.sorted_insertionSort descPct _
  refine ⟨?_, ?_, ?_⟩
  · rw [htop, List.length_take]
    exact Nat.min_le_left _ _
  · rw [htop]
    exact List.Pairwise.sublist (List.take_sublist 5 _) hsorted
  · intro p hp hnot q hq
    rw [hcp] at hp
    rw [htop] at hnot hq
    have hps : p ∈ List.insertionSort descPct
        (classDictsLoop df vcOrder ([], [])).2 :=
      (List.mem_insertionSort descPct).mpr hp
    have hsplit := List.take_append_drop 5
      (List.insertionSort descPct (classDictsLoop df vcOrder ([], [])).2)
    rw [← hsplit] at hps
    have hpd : p ∈ (List.insertionSort descPct
        (classDictsLoop df vcOrder ([], [])).2).drop 5 := by
      rcases List.mem_append.mp hps with h | h
      · exact absurd h hnot
      · exact h
    have hpair : List.Pairwise descPct
        ((List.insertionSort descPct
          (classDictsLoop df vcOrder ([], [])).2).take 5 ++
         (List.insertionSort descPct
          (classDictsLoop df vcOrder ([], [])).2).drop 5) := by
      rw [hsplit]
      exact hsorted
    exact (List.pairwise_append.mp hpair).2.2 q hq p hpd

/-- Counterexample to C6 as stated: on the table `[class 1 "A", class 2 "B"]`
(both percentages 50, a tie) the enumeration `[2, 1]` is a legal
value-counts order — counts are equal, so pandas's unstable descending sort
may emit either order — and it yields `top_5_classes = [B, A]`, while the
input-encounter order of the tied classes is `[A, B]`. -/
theorem c6_equal_pct_not_input_order :
    ValidVCOrder ([⟨1, "A"⟩, ⟨2, "B"⟩] : List Sample) [2, 1] ∧
    countClass ([⟨1, "A"⟩, ⟨2, "B"⟩] : List Sample) 1 =
      countClass ([⟨1, "A"⟩, ⟨2, "B"⟩] : List Sample) 2 ∧
    namesOf ([⟨1, "A"⟩, ⟨2, "B"⟩] : List Sample) = ["A", "B"] ∧
    (analyze_area_coverage ([⟨1, "A"⟩, ⟨2, "B"⟩] : List Sample) 2020
      [2, 1]).top_5_classes.map Prod.fst = ["B", "A"] := by
  refine ⟨by decide, by decide, by decide, ?_⟩
  have h1 : countClass ([⟨1, "A"⟩, ⟨2, "B"⟩] : List Sample) 1 = 1 := by decide
  have h2 : countClass ([⟨1, "A"⟩, ⟨2, "B"⟩] : List Sample) 2 = 1 := by decide
  have hn2 : firstNameOf ([⟨1, "A"⟩, ⟨2, "B"⟩] : List Sample) 2 = "B" := by
    decide
  have hn1 : firstNameOf ([⟨1, "A"⟩, ⟨2, "B"⟩] : List Sample) 1 = "A" := by
    decide
  show ((List.insertionSort descPct (classDictsLoop
      ([⟨1, "A"⟩, ⟨2, "B"⟩] : List Sample) [2, 1] ([], [])).2).take 5).map
      Prod.fst = ["B", "A"]
  rw [classDictsLoop, classDictsLoop, classDictsLoop]
  simp only [h1, h2, hn1, hn2, dictInsert, List.any_nil, List.any_cons,
    Bool.false_or, List.nil_append, List.cons_append]
  norm_num [List.insertionSort, List.orderedInsert, descPct]

/-! ## C10 -/

/-- C10: on the empty table (whose only legal value-counts enumeration is
empty) `analyze_area_coverage` returns the all-empty, all-zero result; the
per-class loop never runs, so the division by the table length is never
executed and no fault can arise. -/
theorem c10_empty_table_defined (year : Int) (vcOrder : List Nat)
    (h : ValidVCOrder [] vcOrder) :
    analyze_area_coverage [] year vcOrder =
      { year := year, total_pixels := 0, total_area_km2 := 0,
        class_statistics := [], class_percentages := [], total_classes := 0,
        top_5_classes := [] } := by
  have hvc : vcOrder = [] := by
    cases vcOrder with
    | nil => rfl
    | cons c rest =>
      have := h.2.1 c (List.mem_cons_self c rest)
      simp [classesOf] at this
  subst hvc
  simp [analyze_area_coverage, classDictsLoop, List.insertionSort]

/-- Witness for C10 at the empty enumeration. -/
theorem c10_empty_table_defined_witness :
    ValidVCOrder [] [] ∧
      analyze_area_coverage [] 2020 [] =
        { year := 2020, total_pixels := 0, total_area_km2 := 0,
          class_statistics := [], class_percentages := [], total_classes := 0,
          top_5_classes := [] } :=
  ⟨by decide, c10_empty_table_defined 2020 [] (by decide)⟩
